import Mathlib

/-!
# Verification of the Master-Structure CRUD backend core

Shallow embedding of the query-shaping / pagination / HATEOAS / event-fanout
core of the repository, together with theorems settling the frozen claims.

Sources embedded (TypeScript → Lean):
* `ProductRepository` (`product.repository.ts`): `findWithFilters` pagination
  metadata, `search`, `countTotal` filter predicate.
* `UserRepository` (`user.repository.ts`): `findWithFilters`, `search`.
* `ResponseBuilderService` (`response-builder.service.ts`):
  `generateHATEOASLinks`, `generatePaginationLinks`.
* `ProductService` / `UserService` (`user.service.ts`): `create`, `update`,
  `remove`, `findOne`, `getUserById` orchestration, validation helpers.
* `PubsubService` (`pubsub.service.ts`): `publish` payload wrapping.
* `ProductResolver` (`product.resolver.ts`): subscription filter functions.

JavaScript truthiness is modelled explicitly (`jsStrTruthy`, …); Prisma's
`contains` with `mode: 'insensitive'` is modelled as case-insensitive
substring containment over the characters of the strings; the database is
modelled as an in-memory list of records.
-/

/-- Boolean prefix test on character lists (`pat` is a prefix of `hay`). -/
def isPrefixCharList : List Char → List Char → Bool
  | [], _ => true
  | _ :: _, [] => false
  | a :: as, b :: bs => a == b && isPrefixCharList as bs

/-- Boolean substring test on character lists (`pat` occurs inside `hay`). -/
def charsContains (hay pat : List Char) : Bool :=
  match hay with
  | [] => pat.isEmpty
  | _ :: t => isPrefixCharList pat hay || charsContains t pat

/-- JavaScript `toLowerCase` / Prisma case folding: the characters of a
string, lower-cased. -/
def lowerStr (s : String) : List Char :=
  s.data.map Char.toLower

/-- Prisma `contains` with `mode: 'insensitive'`: case-insensitive substring
containment, modelled by lower-casing both sides. -/
def containsCI (hay pat : String) : Bool :=
  charsContains (lowerStr hay) (lowerStr pat)

theorem isPrefixCharList_refl (l : List Char) : isPrefixCharList l l = true := by
  induction l with
  | nil => rfl
  | cons a t ih => simp [isPrefixCharList, ih]

theorem charsContains_refl (l : List Char) : charsContains l l = true := by
  cases l with
  | nil => rfl
  | cons a t => simp [charsContains, isPrefixCharList_refl]

/-- Case-insensitively equal strings contain each other case-insensitively. -/
theorem containsCI_of_lowerStr_eq {a b : String} (h : lowerStr a = lowerStr b) :
    containsCI a b = true := by
  unfold containsCI
  rw [h]
  exact charsContains_refl _

/-! ## JavaScript truthiness helpers -/

/-- Truthiness of an optional string in JS conditions (`if (filters.category)`):
present and non-empty. -/
def jsStrTruthy : Option String → Bool
  | none => false
  | some s => s ≠ ""

/-- Truthiness of an optional number used as a resource id
(`resourceId ? … : …`): present and non-zero. -/
def jsNatTruthy : Option Nat → Bool
  | none => false
  | some n => n ≠ 0

/-- Truthiness of an optional boolean (`if (hasPrev && …)`). -/
def jsBoolTruthy : Option Bool → Bool
  | some true => true
  | _ => false

/-! ## Data model (`@prisma/client` records, `shared/types`) -/

/-- A row of the `Product` table.  `price` is Prisma `Decimal`, modelled as a
rational; `createdAt` is a timestamp, modelled as a monotone clock value. -/
structure ProductRec where
  id : Nat
  name : String
  description : Option String
  price : ℚ
  category : String
  createdAt : Nat
  updatedAt : Nat
  deriving Repr, DecidableEq

/-- A row of the `User` table. -/
structure UserRec where
  id : Nat
  email : String
  password : String
  deriving Repr, DecidableEq

/-- `FilterOptions` from `shared/types`, as used by the two repositories. -/
structure FilterOptions where
  category : Option String := none
  minPrice : Option ℚ := none
  maxPrice : Option ℚ := none
  search : Option String := none
  name : Option String := none
  email : Option String := none
  deriving Repr

/-- `SortOptions` from `shared/types`. -/
structure SortOptions where
  field : String
  order : String
  deriving Repr

/-- `PaginationOptions` from `shared/types`. -/
structure PaginationOptions where
  page : Nat
  limit : Nat
  deriving Repr

/-- `QueryOptions` from `shared/types`. -/
structure QueryOptions where
  filters : Option FilterOptions := none
  sort : Option SortOptions := none
  pagination : Option PaginationOptions := none
  deriving Repr

/-- Pagination metadata of a `PaginatedResult`. -/
structure PaginationMeta where
  currentPage : Nat
  totalPages : Nat
  totalItems : Nat
  itemsPerPage : Nat
  hasNext : Bool
  hasPrev : Bool
  deriving Repr, DecidableEq

/-! ## Generic list machinery for the embedded database -/

/-- Stable insertion into a list sorted by `le` (used to model Prisma
`orderBy`). -/
def insertSortedBy {α : Type} (le : α → α → Bool) (a : α) : List α → List α
  | [] => [a]
  | b :: t => if le a b then a :: b :: t else b :: insertSortedBy le a t

/-- Stable insertion sort by `le` (used to model Prisma `orderBy`). -/
def sortListBy {α : Type} (le : α → α → Bool) : List α → List α
  | [] => []
  | a :: t => insertSortedBy le a (sortListBy le t)

theorem mem_insertSortedBy {α : Type} (le : α → α → Bool) (a x : α)
    (l : List α) : x ∈ insertSortedBy le a l ↔ x = a ∨ x ∈ l := by
  induction l with
  | nil => simp [insertSortedBy]
  | cons b t ih =>
    simp only [insertSortedBy]
    split
    · simp
    · simp [ih]
      tauto

theorem mem_sortListBy {α : Type} (le : α → α → Bool) (x : α) (l : List α) :
    x ∈ sortListBy le l ↔ x ∈ l := by
  induction l with
  | nil => simp [sortListBy]
  | cons a t ih => simp [sortListBy, mem_insertSortedBy, ih]

/-! ## Repository layer: `search` (`product.repository.ts`, `user.repository.ts`) -/

/-- The per-field search condition pushed by `ProductRepository.search` for an
allow-listed field, applied to a product.  Prisma `contains` on a `null`
description matches nothing. -/
def productFieldCondition (field : String) (query : String) (p : ProductRec) : Bool :=
  if field = "name" then containsCI p.name query
  else if field = "description" then
    match p.description with
    | some d => containsCI d query
    | none => false
  else if field = "category" then containsCI p.category query
  else false

/-- The allow-list test of `ProductRepository.search`
(`field === 'name' || field === 'description' || field === 'category'`). -/
def productSearchFieldAllowed (field : String) : Bool :=
  field = "name" || field = "description" || field = "category"

/-- Ordering used by `ProductRepository.search` (`orderBy: createdAt desc`). -/
def byCreatedAtDesc (a b : ProductRec) : Bool :=
  b.createdAt ≤ a.createdAt

/-- `ProductRepository.search(query, fields)`.  Returns whether a database
query was issued together with the result rows: fields outside the allow-list
are dropped; if no condition remains the method returns `[]` without querying;
otherwise the rows matching the `OR` of the conditions are fetched, ordered by
`createdAt` descending. -/
def productRepositorySearch (db : List ProductRec) (query : String)
    (fields : List String) : Bool × List ProductRec :=
  let searchConditions := fields.filter productSearchFieldAllowed
  if searchConditions.length = 0 then
    (false, [])
  else
    (true,
      sortListBy byCreatedAtDesc
        (db.filter (fun p =>
          searchConditions.any (fun f => productFieldCondition f query p))))

/-- The allow-list test of `UserRepository.search` (`field === 'email'`). -/
def userSearchFieldAllowed (field : String) : Bool :=
  field = "email"

/-- Ordering used by `UserRepository.search` (`orderBy: id desc`). -/
def byIdDescUser (a b : UserRec) : Bool :=
  b.id ≤ a.id

/-- `UserRepository.search(query, fields)`: same shape as the product variant,
with the allow-list reduced to `email` and ordering `id` descending. -/
def userRepositorySearch (db : List UserRec) (query : String)
    (fields : List String) : Bool × List UserRec :=
  let searchConditions := fields.filter userSearchFieldAllowed
  if searchConditions.length = 0 then
    (false, [])
  else
    (true,
      sortListBy byIdDescUser
        (db.filter (fun u =>
          searchConditions.any (fun _ => containsCI u.email query))))

/-! ## Repository layer: `countTotal` filter predicate (`product.repository.ts`) -/

/-- The `where` predicate built by `ProductRepository.countTotal` from a
`FilterOptions`, applied to a product row.  Top-level Prisma keys are
conjoined: category equality, inclusive price bounds, free-text search as an
`OR` of case-insensitive substring matches over `name` and `description`, and
a case-insensitive substring filter on `name`. -/
def productCountWhere (f : FilterOptions) (p : ProductRec) : Bool :=
  (if jsStrTruthy f.category then p.category == f.category.getD "" else true) &&
  (match f.minPrice with
   | some m => m ≤ p.price
   | none => true) &&
  (match f.maxPrice with
   | some m => p.price ≤ m
   | none => true) &&
  (if jsStrTruthy f.search then
      (containsCI p.name (f.search.getD "") ||
        (match p.description with
         | some d => containsCI d (f.search.getD "")
         | none => false))
    else true) &&
  (if jsStrTruthy f.name then containsCI p.name (f.name.getD "") else true)

/-- `ProductRepository.countTotal(filters)`: count of rows matching the
built `where` predicate (all rows when no filters are supplied). -/
def productRepositoryCountTotal (db : List ProductRec)
    (filters : Option FilterOptions) : Nat :=
  match filters with
  | none => db.length
  | some f => (db.filter (productCountWhere f)).length

/-! ## Repository layer: `findWithFilters` -/

/-- A `PaginatedResult` from `shared/types`. -/
structure PaginatedResult (α : Type) where
  data : List α
  pagination : PaginationMeta

/-- `pagination?.page || 1`: absent or `0` (falsy) resolves to `1`. -/
def paginationPageOf (pg : Option PaginationOptions) : Nat :=
  match pg with
  | none => 1
  | some p => if p.page = 0 then 1 else p.page

/-- `pagination?.limit || 10`: absent or `0` (falsy) resolves to `10`. -/
def paginationLimitOf (pg : Option PaginationOptions) : Nat :=
  match pg with
  | none => 10
  | some p => if p.limit = 0 then 10 else p.limit

/-- The pagination metadata computed by both `findWithFilters`
implementations: `Math.ceil(totalItems / limit)` over natural numbers is
`(totalItems + limit - 1) / limit` (the resolved `limit` is always
positive). -/
def findWithFiltersMeta (pg : Option PaginationOptions) (totalItems : Nat) :
    PaginationMeta :=
  let page := paginationPageOf pg
  let limit := paginationLimitOf pg
  let totalPages := (totalItems + limit - 1) / limit
  { currentPage := page
    totalPages := totalPages
    totalItems := totalItems
    itemsPerPage := limit
    hasNext := decide (page < totalPages)
    hasPrev := decide (1 < page) }

/-- `ProductRepository.findWithFilters(options)`.  The `where`/`orderBy`
clauses are produced by `QueryOptimizerService.getOptimizedProductQuery`,
whose source file is not part of the repository snapshot; the fetch and the
count run against the same `where`, so the matching rows (already ordered)
are abstracted as the parameter `matchingSorted`.  The pagination arithmetic
(`page`, `limit`, `skip`, `take`, metadata) is embedded from the source. -/
def productRepositoryFindWithFilters (matchingSorted : List ProductRec)
    (options : QueryOptions) : PaginatedResult ProductRec :=
  let page := paginationPageOf options.pagination
  let limit := paginationLimitOf options.pagination
  let skip := (page - 1) * limit
  { data := ((matchingSorted.drop skip).take limit)
    pagination := findWithFiltersMeta options.pagination matchingSorted.length }

/-- The final value of the `where.email` contains-argument built by
`UserRepository.findWithFilters`: the `email` filter is assigned first and a
present `search` filter then overwrites it (both guarded by JS truthiness). -/
def userWhereValue (filters : Option FilterOptions) : Option String :=
  match filters with
  | none => none
  | some f =>
    let afterEmail := if jsStrTruthy f.email then f.email else none
    if jsStrTruthy f.search then f.search else afterEmail

/-- The `where` predicate of `UserRepository.findWithFilters` applied to a
row. -/
def userWhereMatches (w : Option String) (u : UserRec) : Bool :=
  match w with
  | none => true
  | some s => containsCI u.email s

/-- The `orderBy` of `UserRepository.findWithFilters`: `[{[sort.field]:
sort.order}]` when a sort is given (dynamic column access; embedded for the
`email` column with `id` as the remaining numeric column), `[{id: 'desc'}]`
otherwise. -/
def userOrderByLe (sort : Option SortOptions) (a b : UserRec) : Bool :=
  match sort with
  | none => b.id ≤ a.id
  | some s =>
    let keyLe : Bool :=
      if s.field = "email" then (compare a.email b.email).isLE
      else a.id ≤ b.id
    if s.order = "desc" then
      (if s.field = "email" then (compare b.email a.email).isLE else b.id ≤ a.id)
    else keyLe

/-- `UserRepository.findWithFilters(options)`: build `where` and `orderBy`,
fetch the page (`skip = (page-1)*limit`, `take = limit`) and count the rows
matching the same `where`, then compute the pagination metadata. -/
def userRepositoryFindWithFilters (db : List UserRec) (options : QueryOptions) :
    PaginatedResult UserRec :=
  let w := userWhereValue options.filters
  let matching := db.filter (userWhereMatches w)
  let sorted := sortListBy (userOrderByLe options.sort) matching
  let page := paginationPageOf options.pagination
  let limit := paginationLimitOf options.pagination
  let skip := (page - 1) * limit
  { data := ((sorted.drop skip).take limit)
    pagination := findWithFiltersMeta options.pagination matching.length }

/-- `(a + b - 1) / b` over naturals is the ceiling of the exact division
`a / b`, for positive `b`. -/
theorem natCeilDiv_eq_ceil (a b : Nat) (hb : 0 < b) :
    (((a + b - 1) / b : Nat) : ℤ) = ⌈(a : ℚ) / (b : ℚ)⌉ := by
  have h := Nat.div_add_mod (a + b - 1) b
  have hr : (a + b - 1) % b < b := Nat.mod_lt _ hb
  set n := (a + b - 1) / b with hn
  have h1 : a ≤ b * n := by omega
  have h2 : b * n < a + b := by omega
  have hbq : (0 : ℚ) < (b : ℚ) := by exact_mod_cast hb
  have hcast : (((n : ℤ) : ℚ)) = (n : ℚ) := by push_cast; ring
  rw [eq_comm, Int.ceil_eq_iff]
  constructor
  · rw [lt_div_iff₀ hbq, hcast]
    have h2q : (b : ℚ) * (n : ℚ) < (a : ℚ) + (b : ℚ) := by exact_mod_cast h2
    nlinarith [h2q]
  · rw [div_le_iff₀ hbq, hcast]
    have h1q : (a : ℚ) ≤ (b : ℚ) * (n : ℚ) := by exact_mod_cast h1
    linarith [h1q]

/-- The pagination contract of the specification, phrased against a returned
`PaginationMeta`: `totalPages` is the exact ceiling of
`totalItems / itemsPerPage`, and the page cursor / navigation flags follow the
stated formulas. -/
def paginationMetaSpecOK (page limit : Nat) (meta : PaginationMeta) : Prop :=
  (meta.totalPages : ℤ) = ⌈(meta.totalItems : ℚ) / (limit : ℚ)⌉ ∧
  meta.currentPage = page ∧
  meta.itemsPerPage = limit ∧
  meta.hasNext = decide (meta.currentPage < meta.totalPages) ∧
  meta.hasPrev = decide (meta.currentPage > 1)

theorem findWithFiltersMeta_spec (page limit t : Nat) (hp : 1 ≤ page)
    (hl : 1 ≤ limit) :
    paginationMetaSpecOK page limit
      (findWithFiltersMeta (some { page := page, limit := limit }) t) := by
  have hpage0 : ¬ page = 0 := by omega
  have hlim0 : ¬ limit = 0 := by omega
  simp only [findWithFiltersMeta, paginationPageOf, paginationLimitOf,
    if_neg hpage0, if_neg hlim0, paginationMetaSpecOK]
  exact ⟨natCeilDiv_eq_ceil t limit (by omega), trivial, trivial, trivial, trivial⟩

/-- **C1.** For every `findWithFilters` call (Product or User repository)
with pagination `page ≥ 1` and `limit ∈ [1,100]`, the returned pagination
metadata satisfies `totalPages = ceil(totalItems/limit)`,
`currentPage = page`, `itemsPerPage = limit`,
`hasNext = (currentPage < totalPages)` and `hasPrev = (currentPage > 1)`. -/
theorem c1_findWithFilters_pagination_meta
    (page limit : Nat) (hp : 1 ≤ page) (hl : 1 ≤ limit) (hl100 : limit ≤ 100)
    (filters : Option FilterOptions) (sort : Option SortOptions)
    (matchingSorted : List ProductRec) (userDb : List UserRec) :
    paginationMetaSpecOK page limit
      (productRepositoryFindWithFilters matchingSorted
        { filters := filters, sort := sort,
          pagination := some { page := page, limit := limit } }).pagination ∧
    paginationMetaSpecOK page limit
      (userRepositoryFindWithFilters userDb
        { filters := filters, sort := sort,
          pagination := some { page := page, limit := limit } }).pagination := by
  constructor
  · exact findWithFiltersMeta_spec page limit _ hp hl
  · exact findWithFiltersMeta_spec page limit _ hp hl

/-- Witness for C1: a concrete call on a two-row user table and a three-row
abstract product result, at `page = 2`, `limit = 2`. -/
theorem c1_findWithFilters_pagination_meta_witness :
    paginationMetaSpecOK 2 2
      (productRepositoryFindWithFilters
        [{ id := 1, name := "A", description := none, price := 5, category := "books",
           createdAt := 0, updatedAt := 0 },
         { id := 2, name := "B", description := none, price := 6, category := "books",
           createdAt := 1, updatedAt := 1 },
         { id := 3, name := "C", description := none, price := 7, category := "books",
           createdAt := 2, updatedAt := 2 }]
        { filters := none, sort := none,
          pagination := some { page := 2, limit := 2 } }).pagination ∧
    paginationMetaSpecOK 2 2
      (userRepositoryFindWithFilters
        [{ id := 1, email := "a@x.com", password := "p" },
         { id := 2, email := "b@x.com", password := "q" }]
        { filters := none, sort := none,
          pagination := some { page := 2, limit := 2 } }).pagination :=
  c1_findWithFilters_pagination_meta 2 2 (by decide) (by decide) (by decide)
    none none _ _

/-! ## Response builder: HATEOAS links (`response-builder.service.ts`) -/

/-- A `HATEOASLink` object (`href`, `method`, `rel`); the optional `type`
field is never set by `generateHATEOASLinks` and is omitted. -/
structure HATEOASLink where
  href : String
  method : String
  rel : String
  deriving Repr, DecidableEq

/-- The `HATEOASLinks` object: `self`, the `related` map (modelled as an
insertion-ordered key/value list) and the optional `pagination` map. -/
structure HATEOASLinks where
  self : String
  related : List (String × HATEOASLink)
  pagination : Option (List (String × String))
  deriving Repr, DecidableEq

/-- The `LinkContext` fields read by `generateHATEOASLinks` /
`generatePaginationLinks` (`resourceState`, `queryParams` and `action` are
accepted by the TypeScript interface but never read by link generation). -/
structure LinkContext where
  baseUrl : String
  resourceId : Option Nat := none
  currentPage : Option Nat := none
  totalPages : Option Nat := none
  hasNext : Option Bool := none
  hasPrev : Option Bool := none
  deriving Repr

/-- `ResponseBuilderService.generatePaginationLinks(context)`: `first` is
always emitted; `last` under `if (totalPages)` (JS truthiness); `prev` under
`if (hasPrev && currentPage && currentPage > 1)`; `next` under
`if (hasNext && currentPage)`. -/
def generatePaginationLinks (ctx : LinkContext) : List (String × String) :=
  [("first", ctx.baseUrl ++ "?page=1")]
  ++ (if jsNatTruthy ctx.totalPages then
        [("last", ctx.baseUrl ++ "?page=" ++ toString (ctx.totalPages.getD 0))]
      else [])
  ++ (if jsBoolTruthy ctx.hasPrev && jsNatTruthy ctx.currentPage
        && decide (1 < ctx.currentPage.getD 0) then
        [("prev", ctx.baseUrl ++ "?page=" ++ toString (ctx.currentPage.getD 0 - 1))]
      else [])
  ++ (if jsBoolTruthy ctx.hasNext && jsNatTruthy ctx.currentPage then
        [("next", ctx.baseUrl ++ "?page=" ++ toString (ctx.currentPage.getD 0 + 1))]
      else [])

/-- `ResponseBuilderService.generateHATEOASLinks(context)`: `self` and the
`related` block depend on JS truthiness of `resourceId`; the `pagination`
block is attached under `context.currentPage !== undefined`. -/
def generateHATEOASLinks (ctx : LinkContext) : HATEOASLinks :=
  let selfUrl :=
    if jsNatTruthy ctx.resourceId then
      ctx.baseUrl ++ "/" ++ toString (ctx.resourceId.getD 0)
    else ctx.baseUrl
  let related :=
    if jsNatTruthy ctx.resourceId then
      [("update", { href := ctx.baseUrl ++ "/" ++ toString (ctx.resourceId.getD 0),
                    method := "PUT", rel := "update" }),
       ("delete", { href := ctx.baseUrl ++ "/" ++ toString (ctx.resourceId.getD 0),
                    method := "DELETE", rel := "delete" }),
       ("collection", { href := ctx.baseUrl, method := "GET", rel := "collection" })]
    else
      [("create", { href := ctx.baseUrl, method := "POST", rel := "create" })]
  { self := selfUrl
    related := related
    pagination :=
      if ctx.currentPage.isSome then some (generatePaginationLinks ctx) else none }

/-- **C2** (failing-input evaluation).  For a resource context
(`baseUrl = "/api/v1/products"`, `resourceId = 1`) the generated links carry
`update.method = "PUT"`, while the claim, the repository's own e2e test
(`product-hateoas.e2e-spec.ts`), its Swagger examples and its `@Patch(':id')`
update route all state `PATCH`. -/
theorem c2_generateHATEOASLinks_update_method_is_PUT :
    generateHATEOASLinks { baseUrl := "/api/v1/products", resourceId := some 1 } =
      { self := "/api/v1/products/1"
        related :=
          [("update", { href := "/api/v1/products/1", method := "PUT", rel := "update" }),
           ("delete", { href := "/api/v1/products/1", method := "DELETE", rel := "delete" }),
           ("collection", { href := "/api/v1/products", method := "GET", rel := "collection" })]
        pagination := none } := by
  decide

/-- The claim's contract on a generated pagination-link map: `first` always
carries `baseUrl?page=1`; `last` is present only if `totalPages` is known and
then carries `baseUrl?page=totalPages`; `prev` only if `hasPrev` and
`currentPage > 1`, carrying `baseUrl?page=(currentPage-1)`; `next` only if
`hasNext`, carrying `baseUrl?page=(currentPage+1)`. -/
def paginationLinksClaimOK (ctx : LinkContext) (pl : List (String × String)) : Bool :=
  (pl.lookup "first" == some (ctx.baseUrl ++ "?page=1")) &&
  (match pl.lookup "last", ctx.totalPages with
   | some v, some tp => v == ctx.baseUrl ++ "?page=" ++ toString tp
   | some _, none => false
   | none, _ => true) &&
  (match pl.lookup "prev", ctx.currentPage with
   | some v, some cp =>
       jsBoolTruthy ctx.hasPrev && decide (1 < cp)
         && (v == ctx.baseUrl ++ "?page=" ++ toString (cp - 1))
   | some _, none => false
   | none, _ => true) &&
  (match pl.lookup "next", ctx.currentPage with
   | some v, some cp =>
       jsBoolTruthy ctx.hasNext && (v == ctx.baseUrl ++ "?page=" ++ toString (cp + 1))
   | some _, none => false
   | none, _ => true)

/-- **C3.** For every link context whose pagination fields are present
(`currentPage` defined), `generateHATEOASLinks` attaches the pagination links
of `generatePaginationLinks`, and they satisfy the claimed contract: `first`
always emitted with `baseUrl?page=1`; `last` only if `totalPages` is known;
`prev` only if `hasPrev` and `currentPage > 1`; `next` only if `hasNext`,
each with the claimed target page. -/
theorem c3_pagination_links_contract (ctx : LinkContext)
    (h : ctx.currentPage.isSome) :
    (generateHATEOASLinks ctx).pagination = some (generatePaginationLinks ctx) ∧
    paginationLinksClaimOK ctx (generatePaginationLinks ctx) = true := by
  refine ⟨by simp [generateHATEOASLinks, h], ?_⟩
  obtain ⟨cp, hcp⟩ := Option.isSome_iff_exists.mp h
  unfold paginationLinksClaimOK generatePaginationLinks
  rw [hcp]
  rcases htp : ctx.totalPages with _ | tp <;>
  by_cases hb : jsBoolTruthy ctx.hasPrev = true <;>
  by_cases hn : jsBoolTruthy ctx.hasNext = true <;>
  by_cases hcp0 : cp = 0 <;>
  by_cases hcp1 : 1 < cp <;>
  first
    | exact absurd hcp1 (by omega)
    | (by_cases htp0 : tp = 0 <;>
        simp [hb, hn, hcp0, hcp1, htp0, jsNatTruthy, List.lookup,
          Bool.not_eq_true] at *)
    | simp [hb, hn, hcp0, hcp1, jsNatTruthy, List.lookup,
        Bool.not_eq_true] at *

/-- Witness for C3: a concrete paginated collection context
(`page 2 of 5`, both navigation flags set). -/
theorem c3_pagination_links_contract_witness :
    ((generateHATEOASLinks
        { baseUrl := "/api/v1/products", currentPage := some 2,
          totalPages := some 5, hasNext := some true,
          hasPrev := some true }).pagination =
      some (generatePaginationLinks
        { baseUrl := "/api/v1/products", currentPage := some 2,
          totalPages := some 5, hasNext := some true,
          hasPrev := some true })) ∧
    paginationLinksClaimOK
      { baseUrl := "/api/v1/products", currentPage := some 2,
        totalPages := some 5, hasNext := some true, hasPrev := some true }
      (generatePaginationLinks
        { baseUrl := "/api/v1/products", currentPage := some 2,
          totalPages := some 5, hasNext := some true,
          hasPrev := some true }) = true :=
  c3_pagination_links_contract _ (by decide)

/-- **C4.** `search(query, fields)` of both repositories ignores fields
outside the allow-list of searchable columns (`name`/`description`/`category`
for Product, `email` for User): the result is unchanged when the field list
is restricted to the allow-list, and when no supplied field is allow-listed
the method returns an empty array without issuing a database query (first
component `false`). -/
theorem c4_search_allowlist (pdb : List ProductRec) (udb : List UserRec)
    (q : String) (fields badFields : List String)
    (hbad : ∀ f ∈ badFields,
      productSearchFieldAllowed f = false ∧ userSearchFieldAllowed f = false) :
    productRepositorySearch pdb q fields
      = productRepositorySearch pdb q (fields.filter productSearchFieldAllowed) ∧
    userRepositorySearch udb q fields
      = userRepositorySearch udb q (fields.filter userSearchFieldAllowed) ∧
    productRepositorySearch pdb q badFields = (false, []) ∧
    userRepositorySearch udb q badFields = (false, []) := by
  refine ⟨?_, ?_, ?_, ?_⟩
  · unfold productRepositorySearch
    simp [List.filter_filter]
  · unfold userRepositorySearch
    simp [List.filter_filter]
  · have hnil : badFields.filter productSearchFieldAllowed = [] := by
      simp only [List.filter_eq_nil_iff]
      intro f hf
      simp [(hbad f hf).1]
    unfold productRepositorySearch
    simp [hnil]
  · have hnil : badFields.filter userSearchFieldAllowed = [] := by
      simp only [List.filter_eq_nil_iff]
      intro f hf
      simp [(hbad f hf).2]
    unfold userRepositorySearch
    simp [hnil]

/-- Witness for C4: concrete one-row tables, a mixed field list and a fully
disallowed field list (`["sku", "password"]`). -/
theorem c4_search_allowlist_witness :
    (productRepositorySearch
        [{ id := 1, name := "Widget", description := some "A tool",
           price := 3, category := "other", createdAt := 0, updatedAt := 0 }]
        "wid" ["name", "sku"]
      = productRepositorySearch
          [{ id := 1, name := "Widget", description := some "A tool",
             price := 3, category := "other", createdAt := 0, updatedAt := 0 }]
          "wid" (["name", "sku"].filter productSearchFieldAllowed)) ∧
    (userRepositorySearch [{ id := 1, email := "a@x.com", password := "p" }]
        "a@x" ["name", "sku"]
      = userRepositorySearch [{ id := 1, email := "a@x.com", password := "p" }]
          "a@x" (["name", "sku"].filter userSearchFieldAllowed)) ∧
    productRepositorySearch
        [{ id := 1, name := "Widget", description := some "A tool",
           price := 3, category := "other", createdAt := 0, updatedAt := 0 }]
        "wid" ["sku", "password"] = (false, []) ∧
    userRepositorySearch [{ id := 1, email := "a@x.com", password := "p" }]
        "a@x" ["sku", "password"] = (false, []) :=
  c4_search_allowlist _ _ _ ["name", "sku"] ["sku", "password"] (by decide)

/-- The filter predicate asserted by claim C5, written from the claim's
words: free-text search matched as a case-insensitive substring across
`name`, `description` **and `category`**, conjoined with the independent
`name` filter and the remaining (category/price) filters. -/
def claimedProductSearchPredicate (f : FilterOptions) (p : ProductRec) : Bool :=
  (if jsStrTruthy f.category then p.category == f.category.getD "" else true) &&
  (match f.minPrice with
   | some m => m ≤ p.price
   | none => true) &&
  (match f.maxPrice with
   | some m => p.price ≤ m
   | none => true) &&
  (if jsStrTruthy f.search then
      (containsCI p.name (f.search.getD "") ||
        (match p.description with
         | some d => containsCI d (f.search.getD "")
         | none => false) ||
        containsCI p.category (f.search.getD ""))
    else true) &&
  (if jsStrTruthy f.name then containsCI p.name (f.name.getD "") else true)

/-- **C5** (counterexample).  A product whose `category` (but neither `name`
nor `description`) contains the free-text search value is matched by the
claim's predicate but not by the predicate the code builds
(`ProductRepository.countTotal` spans only `name` and `description`). -/
theorem c5_search_spans_category_counterexample :
    claimedProductSearchPredicate { search := some "gadget" }
        { id := 1, name := "Phone", description := some "A device", price := 5,
          category := "gadget", createdAt := 0, updatedAt := 0 } = true ∧
    productCountWhere { search := some "gadget" }
        { id := 1, name := "Phone", description := some "A device", price := 5,
          category := "gadget", createdAt := 0, updatedAt := 0 } = false := by
  constructor
  · decide
  · decide

/-- The category and price-bound clauses of the code's filter predicate,
shared by search-and-name decompositions. -/
def productOtherFiltersOK (f : FilterOptions) (p : ProductRec) : Bool :=
  (if jsStrTruthy f.category then p.category == f.category.getD "" else true) &&
  (match f.minPrice with
   | some m => m ≤ p.price
   | none => true) &&
  (match f.maxPrice with
   | some m => p.price ≤ m
   | none => true)

/-- Free-text search as a case-insensitive substring `OR` across `name` and
`description` (a `null` description matches nothing). -/
def searchAcrossNameDesc (s : String) (p : ProductRec) : Bool :=
  containsCI p.name s ||
    (match p.description with
     | some d => containsCI d s
     | none => false)

/-- **C5** (amended).  For every filter set with a free-text search value and
a simultaneously present name filter, the Product filter predicate decomposes
as the conjunction of the remaining filters, the search matched
case-insensitively across `name` and `description` (not `category`), and the
independent substring restriction of the `name` filter on the name column —
the two filters are conjoined, neither replaces the other. -/
theorem c5_search_and_name_filters_conjoined (f : FilterOptions)
    (p : ProductRec) (s n : String) (hs : f.search = some s) (hs0 : s ≠ "")
    (hn : f.name = some n) (hn0 : n ≠ "") :
    productCountWhere f p =
      (productOtherFiltersOK f p && searchAcrossNameDesc s p
        && containsCI p.name n) := by
  unfold productCountWhere productOtherFiltersOK searchAcrossNameDesc
  rw [hs, hn]
  simp [jsStrTruthy, hs0, hn0, Bool.and_assoc]

/-- Witness for the amended C5: a product matching the search in its
description and the name filter in its name. -/
theorem c5_search_and_name_filters_conjoined_witness :
    productCountWhere { search := some "tool", name := some "wid" }
        { id := 1, name := "Widget", description := some "A Tool", price := 3,
          category := "other", createdAt := 0, updatedAt := 0 } =
      (productOtherFiltersOK { search := some "tool", name := some "wid" }
          { id := 1, name := "Widget", description := some "A Tool", price := 3,
            category := "other", createdAt := 0, updatedAt := 0 }
        && searchAcrossNameDesc "tool"
          { id := 1, name := "Widget", description := some "A Tool", price := 3,
            category := "other", createdAt := 0, updatedAt := 0 }
        && containsCI "Widget" "wid") :=
  c5_search_and_name_filters_conjoined _ _ "tool" "wid" rfl (by decide) rfl
    (by decide)

/-! ## Service layer (`ProductService`, `UserService` in `user.service.ts`) -/

/-- JavaScript `String.prototype.trim()` on the characters of a string. -/
def trimChars (l : List Char) : List Char :=
  ((l.dropWhile Char.isWhitespace).reverse.dropWhile Char.isWhitespace).reverse

/-- JavaScript `value.trim()`. -/
def strTrim (s : String) : String :=
  ⟨trimChars s.data⟩

/-- The database state: the `Product` table, the next generated id, and a
monotone clock standing for the server-generated timestamps. -/
structure Db where
  products : List ProductRec
  nextId : Nat
  clock : Nat
  deriving Repr

/-- Payload published on the event bus: full record for create/update,
`{ id }` for delete. -/
inductive EventPayload where
  | productPayload (p : ProductRec)
  | idPayload (id : Nat)
  deriving Repr, DecidableEq

/-- Observable actions of a service operation, in execution order: database
reads, database writes, event publications. -/
inductive SvcAction where
  | dbRead
  | dbWrite
  | pubEvent (topic : String) (payload : EventPayload)
  deriving Repr, DecidableEq

/-- A `{field, message, value, constraint}` entry of a structured validation
error (`value` is rendered as a string). -/
structure FieldError where
  field : String
  message : String
  value : Option String := none
  constraint : Option String := none
  deriving Repr, DecidableEq

/-- Typed errors thrown at the service boundary: `ValidationException`,
`NotFoundException`, `BadRequestException`. -/
inductive SvcError where
  | validation (errors : List FieldError)
  | notFound (message : String)
  | badRequest (message : String)
  deriving Repr, DecidableEq

/-- `CreateProductServiceDto`. -/
structure CreateProductServiceDto where
  name : String
  description : Option String := none
  price : ℚ
  category : String
  deriving Repr

/-- `UpdateProductServiceDto`: every field optional; `description` may also be
an explicit `null` (`some none`). -/
structure UpdateProductServiceDto where
  name : Option String := none
  description : Option (Option String) := none
  price : Option ℚ := none
  category : Option String := none
  deriving Repr

/-- Truthiness of the update DTO's `description` (`!dto.description`):
present, non-null and non-empty. -/
def updDescTruthy : Option (Option String) → Bool
  | some (some d) => d ≠ ""
  | _ => false

/-- The price ceiling `999,999.99`. -/
def maxPrice : ℚ := mkRat 99999999 100

/-- `ProductService.validateCreateProductDto`: structured `{field, message,
value, constraint}` entries, collected in field order. -/
def validateCreateProductDto (dto : CreateProductServiceDto) : List FieldError :=
  (if dto.name = "" ∨ strTrim dto.name = "" then
     [{ field := "name", message := "Product name is required",
        value := some dto.name, constraint := some "required" }]
   else if 255 < dto.name.length then
     [{ field := "name", message := "Product name cannot exceed 255 characters",
        value := some dto.name, constraint := some "maxLength" }]
   else []) ++
  (match dto.description with
   | some d =>
     if d ≠ "" ∧ 1000 < d.length then
       [{ field := "description",
          message := "Product description cannot exceed 1000 characters",
          value := some d, constraint := some "maxLength" }]
     else []
   | none => []) ++
  (if dto.price < 0 then
     [{ field := "price", message := "Product price cannot be negative",
        value := some (toString dto.price), constraint := some "min" }]
   else if maxPrice < dto.price then
     [{ field := "price", message := "Product price cannot exceed 999,999.99",
        value := some (toString dto.price), constraint := some "max" }]
   else []) ++
  (if dto.category = "" ∨ strTrim dto.category = "" then
     [{ field := "category", message := "Product category is required",
        value := some dto.category, constraint := some "required" }]
   else if 100 < dto.category.length then
     [{ field := "category", message := "Product category cannot exceed 100 characters",
        value := some dto.category, constraint := some "maxLength" }]
   else [])

/-- `ProductService.validateUpdateProductDto`: the explicit "at least one
field" rule followed by the per-field rules for present fields. -/
def validateUpdateProductDto (dto : UpdateProductServiceDto) : List FieldError :=
  (if ¬ jsStrTruthy dto.name = true ∧ ¬ updDescTruthy dto.description = true
      ∧ dto.price = none ∧ ¬ jsStrTruthy dto.category = true then
     [{ field := "body", message := "At least one field must be provided for update",
        constraint := some "required" }]
   else []) ++
  (match dto.name with
   | some n =>
     if n = "" ∨ strTrim n = "" then
       [{ field := "name", message := "Product name cannot be empty",
          value := some n, constraint := some "required" }]
     else if 255 < n.length then
       [{ field := "name", message := "Product name cannot exceed 255 characters",
          value := some n, constraint := some "maxLength" }]
     else []
   | none => []) ++
  (match dto.description with
   | some (some d) =>
     if 1000 < d.length then
       [{ field := "description",
          message := "Product description cannot exceed 1000 characters",
          value := some d, constraint := some "maxLength" }]
     else []
   | _ => []) ++
  (match dto.price with
   | some pr =>
     if pr < 0 then
       [{ field := "price", message := "Product price cannot be negative",
          value := some (toString pr), constraint := some "min" }]
     else if maxPrice < pr then
       [{ field := "price", message := "Product price cannot exceed 999,999.99",
          value := some (toString pr), constraint := some "max" }]
     else []
   | none => []) ++
  (match dto.category with
   | some c =>
     if c = "" ∨ strTrim c = "" then
       [{ field := "category", message := "Product category cannot be empty",
          value := some c, constraint := some "required" }]
     else if 100 < c.length then
       [{ field := "category", message := "Product category cannot exceed 100 characters",
          value := some c, constraint := some "maxLength" }]
     else []
   | none => [])

/-- The `ValidationException` raised by the uniqueness pre-check
(`forField('name', 'A product with this name already exists', name,
'unique')`). -/
def uniqueNameError (value : String) : FieldError :=
  { field := "name", message := "A product with this name already exists",
    value := some value, constraint := some "unique" }

/-- The `ValidationException` raised for a non-positive id. -/
def positiveIdError (id : Nat) : FieldError :=
  { field := "id", message := "Product ID must be a positive number",
    value := some (toString id), constraint := some "positive" }

/-- `prisma.product.create`: assign the next id and the server timestamps,
append the row. -/
def repoCreateProduct (db : Db) (name : String) (description : Option String)
    (price : ℚ) (category : String) : ProductRec × Db :=
  let p : ProductRec :=
    { id := db.nextId, name := name, description := description, price := price,
      category := category, createdAt := db.clock, updatedAt := db.clock }
  (p, { products := db.products ++ [p], nextId := db.nextId + 1,
        clock := db.clock + 1 })

/-- `prisma.product.findUnique({ where: { id } })`. -/
def repoFindById (db : Db) (id : Nat) : Option ProductRec :=
  db.products.find? (fun p => p.id = id)

/-- The `updateData` object built by `ProductService.update`: only the fields
that are `!== undefined` are written; `updatedAt` is refreshed. -/
def applyUpdateData (dto : UpdateProductServiceDto) (clock : Nat)
    (p : ProductRec) : ProductRec :=
  { p with
    name := match dto.name with
      | some n => n
      | none => p.name
    description := match dto.description with
      | some d => d
      | none => p.description
    price := match dto.price with
      | some pr => pr
      | none => p.price
    category := match dto.category with
      | some c => c
      | none => p.category
    updatedAt := clock }

/-- `prisma.product.update({ where: { id }, data })`: returns the updated row
(`none` models Prisma's record-not-found throw, unreachable after the
service's existence check). -/
def repoUpdateProduct (db : Db) (id : Nat) (dto : UpdateProductServiceDto) :
    Option (ProductRec × Db) :=
  match db.products.find? (fun p => p.id = id) with
  | none => none
  | some p =>
    some (applyUpdateData dto db.clock p,
      { db with
        products := db.products.map
          (fun q => if q.id = id then applyUpdateData dto db.clock q else q),
        clock := db.clock + 1 })

/-- `prisma.product.delete({ where: { id } })`. -/
def repoDeleteProduct (db : Db) (id : Nat) : Db :=
  { db with products := db.products.filter (fun p => p.id ≠ id) }

/-- Result of a service operation: the thrown-or-returned outcome, the final
database state, and the trace of reads, writes and publications in execution
order (the trace is complete when the operation returns, so everything in it
happens before the response is returned). -/
structure ServiceOutcome (α : Type) where
  result : Except SvcError α
  db : Db
  trace : List SvcAction

/-- `description: createProductDto.description || null`: an empty string is
coerced to `null`. -/
def jsOrNull (o : Option String) : Option String :=
  if jsStrTruthy o then o else none

/-- The case-insensitive exact-match predicate of the uniqueness pre-check
(`p.name.toLowerCase() === name.toLowerCase()`). -/
def nameMatchesCI (queryName : String) (p : ProductRec) : Bool :=
  decide (lowerStr p.name = lowerStr queryName)

/-- `ProductService.create(dto)`.  Flow: validate; search existing products
by name (database read) and reject on a case-insensitive exact match;
otherwise insert (database write) and publish `productCreated` with the full
record.  `repoFault` injects an unexpected repository failure at the insert
(with the original error detail as its message), which the `catch` block
replaces by `BadRequestException('Failed to create product')`;
`ValidationException`s are re-thrown unchanged. -/
def productServiceCreate (db : Db) (dto : CreateProductServiceDto)
    (repoFault : Option String) : ServiceOutcome ProductRec :=
  match validateCreateProductDto dto with
  | e :: es => { result := .error (.validation (e :: es)), db := db, trace := [] }
  | [] =>
    let candidates := (productRepositorySearch db.products dto.name ["name"]).2
    match candidates.find? (nameMatchesCI dto.name) with
    | some _ =>
      { result := .error (.validation [uniqueNameError dto.name]), db := db,
        trace := [.dbRead] }
    | none =>
      match repoFault with
      | some _ =>
        { result := .error (.badRequest "Failed to create product"), db := db,
          trace := [.dbRead] }
      | none =>
        let res := repoCreateProduct db dto.name (jsOrNull dto.description)
          dto.price dto.category
        { result := .ok res.1, db := res.2,
          trace := [.dbRead, .dbWrite,
            .pubEvent "productCreated" (.productPayload res.1)] }

/-- The guard of the update-path uniqueness check
(`updateProductDto.name && updateProductDto.name !== existingProduct.name`). -/
def updateNameCheckNeeded (dto : UpdateProductServiceDto)
    (existing : ProductRec) : Bool :=
  match dto.name with
  | some n => n ≠ "" && n ≠ existing.name
  | none => false

/-- `ProductService.update(id, dto)`.  Flow: positive-id check; validate;
existence read (`NotFoundException` when missing); a name-uniqueness read
when a truthy new name differs from the current one (rejecting a
case-insensitive match on a different id); then write and publish
`productUpdated` with the updated record.  A natural-number id models the
`!id || id <= 0` guard as `id = 0`. -/
def productServiceUpdate (db : Db) (id : Nat) (dto : UpdateProductServiceDto) :
    ServiceOutcome ProductRec :=
  if id = 0 then
    { result := .error (.validation [positiveIdError id]), db := db, trace := [] }
  else
    match validateUpdateProductDto dto with
    | e :: es => { result := .error (.validation (e :: es)), db := db, trace := [] }
    | [] =>
      match repoFindById db id with
      | none =>
        { result := .error (.notFound s!"Product with ID {id} not found"),
          db := db, trace := [.dbRead] }
      | some existing =>
        if updateNameCheckNeeded dto existing then
          let newName := dto.name.getD ""
          let candidates := (productRepositorySearch db.products newName ["name"]).2
          match candidates.find?
              (fun p => nameMatchesCI newName p && p.id ≠ id) with
          | some _ =>
            { result := .error (.validation [uniqueNameError newName]),
              db := db, trace := [.dbRead, .dbRead] }
          | none =>
            match repoUpdateProduct db id dto with
            | some res =>
              { result := .ok res.1, db := res.2,
                trace := [.dbRead, .dbRead, .dbWrite,
                  .pubEvent "productUpdated" (.productPayload res.1)] }
            | none =>
              { result := .error (.badRequest "Failed to update product"),
                db := db, trace := [.dbRead, .dbRead] }
        else
          match repoUpdateProduct db id dto with
          | some res =>
            { result := .ok res.1, db := res.2,
              trace := [.dbRead, .dbWrite,
                .pubEvent "productUpdated" (.productPayload res.1)] }
          | none =>
            { result := .error (.badRequest "Failed to update product"),
              db := db, trace := [.dbRead] }

/-- `ProductService.remove(id)`.  Flow: positive-id check; existence read
(`NotFoundException` when missing); delete (database write); publish
`productDeleted` with payload `{ id }` — only the deleted id, not the former
record. -/
def productServiceRemove (db : Db) (id : Nat) : ServiceOutcome Unit :=
  if id = 0 then
    { result := .error (.validation [positiveIdError id]), db := db, trace := [] }
  else
    match repoFindById db id with
    | none =>
      { result := .error (.notFound s!"Product with ID {id} not found"),
        db := db, trace := [.dbRead] }
    | some _ =>
      { result := .ok (), db := repoDeleteProduct db id,
        trace := [.dbRead, .dbWrite, .pubEvent "productDeleted" (.idPayload id)] }

/-- `ProductService.findOne(id)`: positive-id check, then the lookup inside
`try`; a `NotFoundException` is re-thrown unchanged by the `catch` block,
while an injected unexpected repository failure (with its original detail)
is replaced by `BadRequestException('Failed to retrieve product')`. -/
def productServiceFindOne (db : Db) (id : Nat) (repoFault : Option String) :
    Except SvcError ProductRec :=
  if id = 0 then .error (.validation [positiveIdError id])
  else
    match repoFault with
    | some _ => .error (.badRequest "Failed to retrieve product")
    | none =>
      match repoFindById db id with
      | none => .error (.notFound s!"Product with ID {id} not found")
      | some p => .ok p

/-- `ProductResolver.findOne`: awaits the service call with no `catch`, so
service-boundary errors propagate to the transport unchanged. -/
def productResolverFindOne (db : Db) (id : Nat) (repoFault : Option String) :
    Except SvcError ProductRec :=
  productServiceFindOne db id repoFault

/-- The `Result<T>` shape returned by `UserService`. -/
structure UserResult (α : Type) where
  statusCode : Nat
  success : Bool
  data : Option α
  errorMessage : Option String
  errorCode : Option String
  deriving Repr, DecidableEq

/-- `UserService.getUserById(id)`: a missing user yields a typed `NOT_FOUND`
result; any unexpected repository failure (injected with its original detail)
is caught and replaced by the fixed message `'An unexpected error occurred'`
with status 500. -/
def userServiceGetUserById (udb : List UserRec) (id : Nat)
    (repoFault : Option String) : UserResult UserRec :=
  match repoFault with
  | some _ =>
    { statusCode := 500, success := false, data := none,
      errorMessage := some "An unexpected error occurred", errorCode := none }
  | none =>
    match udb.find? (fun u => u.id = id) with
    | none =>
      { statusCode := 404, success := false, data := none,
        errorMessage := some s!"User with id {id} not found",
        errorCode := some "NOT_FOUND" }
    | some u =>
      { statusCode := 200, success := true, data := some u,
        errorMessage := none, errorCode := none }

/-- Errors of the validation / existence / uniqueness pre-checks (as opposed
to genericized unexpected failures). -/
def isPreCheckError : SvcError → Bool
  | .validation _ => true
  | .notFound _ => true
  | .badRequest _ => false

/-- Whether an operation outcome is a pre-check failure. -/
def failedPreCheck {α : Type} (r : Except SvcError α) : Bool :=
  match r with
  | .error e => isPreCheckError e
  | .ok _ => false

/-- Actions that mutate the store or notify subscribers. -/
def isMutationOrPublish : SvcAction → Bool
  | .dbWrite => true
  | .pubEvent _ _ => true
  | .dbRead => false

theorem create_preCheck_clean (db : Db) (dto : CreateProductServiceDto)
    (fault : Option String)
    (hc : failedPreCheck (productServiceCreate db dto fault).result = true) :
    (productServiceCreate db dto fault).db = db ∧
    (productServiceCreate db dto fault).trace.all
      (fun a => !isMutationOrPublish a) = true := by
  unfold productServiceCreate at hc ⊢
  rcases hval : validateCreateProductDto dto with _ | ⟨e, es⟩ <;>
    simp only [hval] at hc ⊢
  · rcases hfind : List.find? (nameMatchesCI dto.name)
        (productRepositorySearch db.products dto.name ["name"]).2 with _ | p <;>
      simp only [hfind] at hc ⊢
    · rcases fault with _ | s <;>
        simp_all [failedPreCheck, isPreCheckError, isMutationOrPublish]
    · simp_all [failedPreCheck, isPreCheckError, isMutationOrPublish]
  · simp_all [failedPreCheck, isPreCheckError, isMutationOrPublish]

theorem update_preCheck_clean (db : Db) (id : Nat)
    (dto : UpdateProductServiceDto)
    (hu : failedPreCheck (productServiceUpdate db id dto).result = true) :
    (productServiceUpdate db id dto).db = db ∧
    (productServiceUpdate db id dto).trace.all
      (fun a => !isMutationOrPublish a) = true := by
  unfold productServiceUpdate at hu ⊢
  by_cases hid : id = 0
  · simp_all [failedPreCheck, isPreCheckError, isMutationOrPublish]
  · simp only [if_neg hid] at hu ⊢
    rcases hval : validateUpdateProductDto dto with _ | ⟨e, es⟩ <;>
      simp only [hval] at hu ⊢
    · rcases hfid : repoFindById db id with _ | existing <;>
        simp only [hfid] at hu ⊢
      · simp_all [failedPreCheck, isPreCheckError, isMutationOrPublish]
      · rcases hneed : updateNameCheckNeeded dto existing <;>
          simp only [hneed] at hu ⊢
        · rcases hupd : repoUpdateProduct db id dto with _ | res <;>
            simp_all [failedPreCheck, isPreCheckError, isMutationOrPublish]
        · rcases hfind2 : List.find?
              (fun p => nameMatchesCI (dto.name.getD "") p && p.id ≠ id)
              (productRepositorySearch db.products (dto.name.getD "") ["name"]).2
              with _ | q <;> simp only [hfind2] at hu ⊢
          · rcases hupd : repoUpdateProduct db id dto with _ | res <;>
              simp_all [failedPreCheck, isPreCheckError, isMutationOrPublish]
          · simp_all [failedPreCheck, isPreCheckError, isMutationOrPublish]
    · simp_all [failedPreCheck, isPreCheckError, isMutationOrPublish]

theorem remove_preCheck_clean (db : Db) (id : Nat)
    (hr : failedPreCheck (productServiceRemove db id).result = true) :
    (productServiceRemove db id).db = db ∧
    (productServiceRemove db id).trace.all
      (fun a => !isMutationOrPublish a) = true := by
  unfold productServiceRemove at hr ⊢
  by_cases hid : id = 0
  · simp_all [failedPreCheck, isPreCheckError, isMutationOrPublish]
  · simp only [if_neg hid] at hr ⊢
    rcases hfid : repoFindById db id with _ | existing <;>
      simp_all [failedPreCheck, isPreCheckError, isMutationOrPublish]

/-- **C7.** For every `ProductService` mutation (create, update, remove): if
input validation or the existence/uniqueness pre-check fails (a typed
validation or not-found error), the operation throws with the stored state
unchanged and with no database write and no event publication in its trace —
no subscriber is notified on such a failure. -/
theorem c7_preCheck_failure_no_write_no_publish (db : Db)
    (cdto : CreateProductServiceDto) (cfault : Option String)
    (uid : Nat) (udto : UpdateProductServiceDto) (rid : Nat)
    (hc : failedPreCheck (productServiceCreate db cdto cfault).result = true)
    (hu : failedPreCheck (productServiceUpdate db uid udto).result = true)
    (hr : failedPreCheck (productServiceRemove db rid).result = true) :
    ((productServiceCreate db cdto cfault).db = db ∧
     (productServiceCreate db cdto cfault).trace.all
       (fun a => !isMutationOrPublish a) = true) ∧
    ((productServiceUpdate db uid udto).db = db ∧
     (productServiceUpdate db uid udto).trace.all
       (fun a => !isMutationOrPublish a) = true) ∧
    ((productServiceRemove db rid).db = db ∧
     (productServiceRemove db rid).trace.all
       (fun a => !isMutationOrPublish a) = true) :=
  ⟨create_preCheck_clean db cdto cfault hc,
   update_preCheck_clean db uid udto hu,
   remove_preCheck_clean db rid hr⟩

/-- Witness for C7: a create with an empty name (validation failure), an
update with id `0` (positive-id check failure) and a remove of id `99`
(existence check failure), against a one-product store. -/
theorem c7_preCheck_failure_no_write_no_publish_witness :
    ((productServiceCreate
        { products := [{ id := 1, name := "Widget", description := none,
                         price := 3, category := "books", createdAt := 0,
                         updatedAt := 0 }], nextId := 2, clock := 5 }
        { name := "", price := 3, category := "books" } none).db =
      { products := [{ id := 1, name := "Widget", description := none,
                       price := 3, category := "books", createdAt := 0,
                       updatedAt := 0 }], nextId := 2, clock := 5 } ∧
     (productServiceCreate
        { products := [{ id := 1, name := "Widget", description := none,
                         price := 3, category := "books", createdAt := 0,
                         updatedAt := 0 }], nextId := 2, clock := 5 }
        { name := "", price := 3, category := "books" } none).trace.all
       (fun a => !isMutationOrPublish a) = true) ∧
    ((productServiceUpdate
        { products := [{ id := 1, name := "Widget", description := none,
                         price := 3, category := "books", createdAt := 0,
                         updatedAt := 0 }], nextId := 2, clock := 5 }
        0 { name := some "Gear" }).db =
      { products := [{ id := 1, name := "Widget", description := none,
                       price := 3, category := "books", createdAt := 0,
                       updatedAt := 0 }], nextId := 2, clock := 5 } ∧
     (productServiceUpdate
        { products := [{ id := 1, name := "Widget", description := none,
                         price := 3, category := "books", createdAt := 0,
                         updatedAt := 0 }], nextId := 2, clock := 5 }
        0 { name := some "Gear" }).trace.all
       (fun a => !isMutationOrPublish a) = true) ∧
    ((productServiceRemove
        { products := [{ id := 1, name := "Widget", description := none,
                         price := 3, category := "books", createdAt := 0,
                         updatedAt := 0 }], nextId := 2, clock := 5 }
        99).db =
      { products := [{ id := 1, name := "Widget", description := none,
                       price := 3, category := "books", createdAt := 0,
                       updatedAt := 0 }], nextId := 2, clock := 5 } ∧
     (productServiceRemove
        { products := [{ id := 1, name := "Widget", description := none,
                         price := 3, category := "books", createdAt := 0,
                         updatedAt := 0 }], nextId := 2, clock := 5 }
        99).trace.all (fun a => !isMutationOrPublish a) = true) :=
  c7_preCheck_failure_no_write_no_publish _ _ none 0 _ 99
    (by decide) (by decide) (by decide)

deriving instance DecidableEq for Except

/-- The publications of a trace, in order. -/
def pubsOf (t : List SvcAction) : List (String × EventPayload) :=
  t.filterMap fun a =>
    match a with
    | .pubEvent s p => some (s, p)
    | _ => none

theorem create_success_trace (db : Db) (dto : CreateProductServiceDto)
    (fault : Option String) (pc : ProductRec)
    (h : (productServiceCreate db dto fault).result = .ok pc) :
    pubsOf (productServiceCreate db dto fault).trace =
      [("productCreated", .productPayload pc)] ∧
    (productServiceCreate db dto fault).trace.getLast? =
      some (.pubEvent "productCreated" (.productPayload pc)) ∧
    (productServiceCreate db dto fault).trace.dropLast.getLast? =
      some .dbWrite := by
  unfold productServiceCreate at h ⊢
  rcases hval : validateCreateProductDto dto with _ | ⟨e, es⟩ <;>
    simp only [hval] at h ⊢
  · rcases hfind : List.find? (nameMatchesCI dto.name)
        (productRepositorySearch db.products dto.name ["name"]).2 with _ | p <;>
      simp only [hfind] at h ⊢
    · rcases fault with _ | s <;> simp_all [pubsOf]
    · simp_all
  · simp_all

theorem update_success_trace (db : Db) (id : Nat)
    (dto : UpdateProductServiceDto) (pu : ProductRec)
    (h : (productServiceUpdate db id dto).result = .ok pu) :
    pubsOf (productServiceUpdate db id dto).trace =
      [("productUpdated", .productPayload pu)] ∧
    (productServiceUpdate db id dto).trace.getLast? =
      some (.pubEvent "productUpdated" (.productPayload pu)) ∧
    (productServiceUpdate db id dto).trace.dropLast.getLast? =
      some .dbWrite := by
  unfold productServiceUpdate at h ⊢
  by_cases hid : id = 0
  · simp_all
  · simp only [if_neg hid] at h ⊢
    rcases hval : validateUpdateProductDto dto with _ | ⟨e, es⟩ <;>
      simp only [hval] at h ⊢
    · rcases hfid : repoFindById db id with _ | existing <;>
        simp only [hfid] at h ⊢
      · simp_all
      · rcases hneed : updateNameCheckNeeded dto existing <;>
          simp only [hneed] at h ⊢
        · rcases hupd : repoUpdateProduct db id dto with _ | res <;>
            simp_all [pubsOf]
        · rcases hfind2 : List.find?
              (fun p => nameMatchesCI (dto.name.getD "") p && p.id ≠ id)
              (productRepositorySearch db.products (dto.name.getD "") ["name"]).2
              with _ | q <;> simp only [hfind2] at h ⊢
          · rcases hupd : repoUpdateProduct db id dto with _ | res <;>
              simp_all [pubsOf]
          · simp_all
    · simp_all

theorem remove_success_trace (db : Db) (id : Nat)
    (h : (productServiceRemove db id).result = .ok ()) :
    pubsOf (productServiceRemove db id).trace =
      [("productDeleted", .idPayload id)] ∧
    (productServiceRemove db id).trace.getLast? =
      some (.pubEvent "productDeleted" (.idPayload id)) ∧
    (productServiceRemove db id).trace.dropLast.getLast? =
      some .dbWrite := by
  unfold productServiceRemove at h ⊢
  by_cases hid : id = 0
  · simp_all
  · simp only [if_neg hid] at h ⊢
    rcases hfid : repoFindById db id with _ | existing <;> simp_all [pubsOf]

/-- **C8.** For every successful mutation (create, update, delete), exactly
one event is published, to the topic named after the event
(`productCreated` / `productUpdated` / `productDeleted`); the publication is
the last traced action, immediately after the repository write (so after the
write succeeds and before the operation returns its response); and the
delete event's payload carries only the deleted id, not the former record. -/
theorem c8_mutation_publishes_one_event
    (db₁ db₂ db₃ : Db) (cdto : CreateProductServiceDto)
    (cfault : Option String) (pc : ProductRec)
    (uid : Nat) (udto : UpdateProductServiceDto) (pu : ProductRec) (rid : Nat)
    (hc : (productServiceCreate db₁ cdto cfault).result = .ok pc)
    (hu : (productServiceUpdate db₂ uid udto).result = .ok pu)
    (hr : (productServiceRemove db₃ rid).result = .ok ()) :
    (pubsOf (productServiceCreate db₁ cdto cfault).trace =
        [("productCreated", .productPayload pc)] ∧
      (productServiceCreate db₁ cdto cfault).trace.getLast? =
        some (.pubEvent "productCreated" (.productPayload pc)) ∧
      (productServiceCreate db₁ cdto cfault).trace.dropLast.getLast? =
        some .dbWrite) ∧
    (pubsOf (productServiceUpdate db₂ uid udto).trace =
        [("productUpdated", .productPayload pu)] ∧
      (productServiceUpdate db₂ uid udto).trace.getLast? =
        some (.pubEvent "productUpdated" (.productPayload pu)) ∧
      (productServiceUpdate db₂ uid udto).trace.dropLast.getLast? =
        some .dbWrite) ∧
    (pubsOf (productServiceRemove db₃ rid).trace =
        [("productDeleted", .idPayload rid)] ∧
      (productServiceRemove db₃ rid).trace.getLast? =
        some (.pubEvent "productDeleted" (.idPayload rid)) ∧
      (productServiceRemove db₃ rid).trace.dropLast.getLast? =
        some .dbWrite) :=
  ⟨create_success_trace db₁ cdto cfault pc hc,
   update_success_trace db₂ uid udto pu hu,
   remove_success_trace db₃ rid hr⟩

/-- Witness for C8: a successful create on an empty store, and a successful
price update / remove of a stored product. -/
theorem c8_mutation_publishes_one_event_witness :
    (pubsOf (productServiceCreate { products := [], nextId := 1, clock := 0 }
        { name := "Gear", price := 2, category := "books" } none).trace =
      [("productCreated", .productPayload
          { id := 1, name := "Gear", description := none, price := 2,
            category := "books", createdAt := 0, updatedAt := 0 })] ∧
      (productServiceCreate { products := [], nextId := 1, clock := 0 }
        { name := "Gear", price := 2, category := "books" } none).trace.getLast? =
        some (.pubEvent "productCreated" (.productPayload
          { id := 1, name := "Gear", description := none, price := 2,
            category := "books", createdAt := 0, updatedAt := 0 })) ∧
      (productServiceCreate { products := [], nextId := 1, clock := 0 }
        { name := "Gear", price := 2, category := "books" }
        none).trace.dropLast.getLast? = some .dbWrite) ∧
    (pubsOf (productServiceUpdate
        { products := [{ id := 1, name := "Widget", description := none,
                         price := 3, category := "books", createdAt := 0,
                         updatedAt := 0 }], nextId := 2, clock := 5 }
        1 { price := some 4 }).trace =
      [("productUpdated", .productPayload
          { id := 1, name := "Widget", description := none, price := 4,
            category := "books", createdAt := 0, updatedAt := 5 })] ∧
      (productServiceUpdate
        { products := [{ id := 1, name := "Widget", description := none,
                         price := 3, category := "books", createdAt := 0,
                         updatedAt := 0 }], nextId := 2, clock := 5 }
        1 { price := some 4 }).trace.getLast? =
        some (.pubEvent "productUpdated" (.productPayload
          { id := 1, name := "Widget", description := none, price := 4,
            category := "books", createdAt := 0, updatedAt := 5 })) ∧
      (productServiceUpdate
        { products := [{ id := 1, name := "Widget", description := none,
                         price := 3, category := "books", createdAt := 0,
                         updatedAt := 0 }], nextId := 2, clock := 5 }
        1 { price := some 4 }).trace.dropLast.getLast? = some .dbWrite) ∧
    (pubsOf (productServiceRemove
        { products := [{ id := 1, name := "Widget", description := none,
                         price := 3, category := "books", createdAt := 0,
                         updatedAt := 0 }], nextId := 2, clock := 5 }
        1).trace = [("productDeleted", .idPayload 1)] ∧
      (productServiceRemove
        { products := [{ id := 1, name := "Widget", description := none,
                         price := 3, category := "books", createdAt := 0,
                         updatedAt := 0 }], nextId := 2, clock := 5 }
        1).trace.getLast? =
        some (.pubEvent "productDeleted" (.idPayload 1)) ∧
      (productServiceRemove
        { products := [{ id := 1, name := "Widget", description := none,
                         price := 3, category := "books", createdAt := 0,
                         updatedAt := 0 }], nextId := 2, clock := 5 }
        1).trace.dropLast.getLast? = some .dbWrite) :=
  c8_mutation_publishes_one_event _ _ _ _ none _ 1 _ _ 1
    (by decide) (by decide) (by decide)

/-- **C9.** At the service boundary of both services: validation and
not-found errors are raised as typed exceptions (and pass unchanged through
the catch-free resolver caller), while any other unexpected repository error
is caught and replaced by a generic error carrying a fixed message — the
result is independent of the original error detail, which is lost
(`'Failed to create product'`, `'Failed to retrieve product'`,
`'An unexpected error occurred'`). -/
theorem c9_error_propagation_policy
    (db : Db) (udb : List UserRec) (cdto bdto : CreateProductServiceDto)
    (e : FieldError) (es : List FieldError)
    (fid uid : Nat) (detail detail2 : String)
    (hval : validateCreateProductDto cdto = [])
    (hnoconf : List.find? (nameMatchesCI cdto.name)
        (productRepositorySearch db.products cdto.name ["name"]).2 = none)
    (hbad : validateCreateProductDto bdto = e :: es)
    (hfid : ¬ fid = 0)
    (hmiss : repoFindById db fid = none) :
    (productServiceCreate db cdto (some detail)).result
        = .error (.badRequest "Failed to create product") ∧
    (productServiceCreate db cdto (some detail)).result
        = (productServiceCreate db cdto (some detail2)).result ∧
    productServiceFindOne db fid (some detail)
        = .error (.badRequest "Failed to retrieve product") ∧
    userServiceGetUserById udb uid (some detail)
        = { statusCode := 500, success := false, data := none,
            errorMessage := some "An unexpected error occurred",
            errorCode := none } ∧
    (productServiceCreate db bdto (some detail)).result
        = .error (.validation (e :: es)) ∧
    productServiceFindOne db fid none
        = .error (.notFound s!"Product with ID {fid} not found") ∧
    productResolverFindOne db fid none = productServiceFindOne db fid none := by
  refine ⟨?_, ?_, ?_, ?_, ?_, ?_, rfl⟩
  · simp [productServiceCreate, hval, hnoconf]
  · simp [productServiceCreate, hval, hnoconf]
  · simp [productServiceFindOne, hfid]
  · simp [userServiceGetUserById]
  · simp [productServiceCreate, hbad]
  · simp [productServiceFindOne, hfid, hmiss]

/-- Witness for C9: a one-product store and an injected repository failure
`"boom"`, a create that passes its pre-checks, a create with an empty name,
and lookups of the missing id `99`. -/
theorem c9_error_propagation_policy_witness :
    ((productServiceCreate
        { products := [{ id := 1, name := "Widget", description := none,
                         price := 3, category := "books", createdAt := 0,
                         updatedAt := 0 }], nextId := 2, clock := 5 }
        { name := "Gear", price := 2, category := "books" }
        (some "boom")).result
      = .error (.badRequest "Failed to create product")) ∧
    ((productServiceCreate
        { products := [{ id := 1, name := "Widget", description := none,
                         price := 3, category := "books", createdAt := 0,
                         updatedAt := 0 }], nextId := 2, clock := 5 }
        { name := "Gear", price := 2, category := "books" }
        (some "boom")).result
      = (productServiceCreate
          { products := [{ id := 1, name := "Widget", description := none,
                           price := 3, category := "books", createdAt := 0,
                           updatedAt := 0 }], nextId := 2, clock := 5 }
          { name := "Gear", price := 2, category := "books" }
          (some "a different ORM failure")).result) ∧
    (productServiceFindOne
        { products := [{ id := 1, name := "Widget", description := none,
                         price := 3, category := "books", createdAt := 0,
                         updatedAt := 0 }], nextId := 2, clock := 5 }
        99 (some "boom")
      = .error (.badRequest "Failed to retrieve product")) ∧
    (userServiceGetUserById [{ id := 1, email := "a@x.com", password := "p" }]
        7 (some "boom")
      = { statusCode := 500, success := false, data := none,
          errorMessage := some "An unexpected error occurred",
          errorCode := none }) ∧
    ((productServiceCreate
        { products := [{ id := 1, name := "Widget", description := none,
                         price := 3, category := "books", createdAt := 0,
                         updatedAt := 0 }], nextId := 2, clock := 5 }
        { name := "", price := 3, category := "books" } (some "boom")).result
      = .error (.validation
          [{ field := "name", message := "Product name is required",
             value := some "", constraint := some "required" }])) ∧
    (productServiceFindOne
        { products := [{ id := 1, name := "Widget", description := none,
                         price := 3, category := "books", createdAt := 0,
                         updatedAt := 0 }], nextId := 2, clock := 5 }
        99 none
      = .error (.notFound "Product with ID 99 not found")) ∧
    (productResolverFindOne
        { products := [{ id := 1, name := "Widget", description := none,
                         price := 3, category := "books", createdAt := 0,
                         updatedAt := 0 }], nextId := 2, clock := 5 } 99 none
      = productServiceFindOne
          { products := [{ id := 1, name := "Widget", description := none,
                           price := 3, category := "books", createdAt := 0,
                           updatedAt := 0 }], nextId := 2, clock := 5 } 99 none) :=
  c9_error_propagation_policy _ _ _ _ _ [] 99 7 "boom" "a different ORM failure"
    (by decide) (by decide) (by decide) (by decide) (by decide)

/-! ## Event bus and GraphQL subscription filters
(`pubsub.service.ts`, `product.resolver.ts`) -/

/-- `PubsubService.publish(trigger, payload)` publishes
`{ [trigger]: payload }`: the object delivered to subscribers, modelled as a
key-indexed partial map, holds the payload under the topic name and nothing
under any other key. -/
def pubsubPublish {α : Type} (trigger : String) (payload : α) :
    String → Option α :=
  fun key => if key = trigger then some payload else none

/-- The optional `ProductSubscriptionFilter` argument of the subscriptions. -/
structure ProductSubscriptionFilter where
  categories : Option (List String) := none
  minPrice : Option ℚ := none
  maxPrice : Option ℚ := none
  userId : Option Nat := none
  deriving Repr

/-- The body shared by the `productCreated` / `productUpdated` subscription
filter functions, applied to the product read out of the delivered object:
no filter passes everything; a non-empty category list must contain the
product's category; a price below `minPrice` or above `maxPrice` is
rejected. -/
def subscriptionFilterPasses (filter : Option ProductSubscriptionFilter)
    (product : ProductRec) : Bool :=
  match filter with
  | none => true
  | some f =>
    if (match f.categories with
        | some cs => decide (0 < cs.length) && !(cs.contains product.category)
        | none => false) then false
    else if (match f.minPrice with
        | some m => decide (product.price < m)
        | none => false) then false
    else if (match f.maxPrice with
        | some m => decide (m < product.price)
        | none => false) then false
    else true

/-- The `filter` function of the `productCreated` subscription: it reads
`payload.productCreated` out of the delivered object, so it depends on the
payload being nested under the topic name (`none` models the TypeError on a
missing field). -/
def productCreatedFilterFn (payload : String → Option ProductRec)
    (filter : Option ProductSubscriptionFilter) : Option Bool :=
  (payload "productCreated").map (subscriptionFilterPasses filter)

/-- The `filter` function of the `productUpdated` subscription (reads
`payload.productUpdated`). -/
def productUpdatedFilterFn (payload : String → Option ProductRec)
    (filter : Option ProductSubscriptionFilter) : Option Bool :=
  (payload "productUpdated").map (subscriptionFilterPasses filter)

/-- Category-set membership and price-bounds filtering, written from the
claim's words: the category must be in a non-empty requested set, and the
price must lie within the requested closed bounds. -/
def specCategoryPriceFilter (f : ProductSubscriptionFilter)
    (p : ProductRec) : Bool :=
  (match f.categories with
   | some cs => if 0 < cs.length then cs.contains p.category else true
   | none => true) &&
  (match f.minPrice with
   | some m => m ≤ p.price
   | none => true) &&
  (match f.maxPrice with
   | some m => p.price ≤ m
   | none => true)

/-- **C10.** `publish(t, p)` delivers `{ t: p }` — the payload nested under
the topic name, nothing under other keys — and the subscription filter
functions depend on this shape by reading `payload.productCreated` /
`payload.productUpdated`, applying category-set and price-bounds
filtering to the nested product. -/
theorem c10_publish_nests_payload_under_topic
    (t : String) (p q : ProductRec) (f : ProductSubscriptionFilter)
    (hne : ¬ t = "productCreated") :
    pubsubPublish "productCreated" p "productCreated" = some p ∧
    pubsubPublish "productCreated" p t = none ∧
    productCreatedFilterFn (pubsubPublish "productCreated" p) (some f)
      = some (subscriptionFilterPasses (some f) p) ∧
    productCreatedFilterFn (pubsubPublish "productUpdated" q) (some f)
      = none ∧
    productUpdatedFilterFn (pubsubPublish "productUpdated" q) (some f)
      = some (subscriptionFilterPasses (some f) q) ∧
    subscriptionFilterPasses (some f) p = specCategoryPriceFilter f p ∧
    subscriptionFilterPasses none p = true := by
  refine ⟨rfl, by simp [pubsubPublish, hne], rfl, rfl, rfl, ?_, rfl⟩
  unfold subscriptionFilterPasses specCategoryPriceFilter
  rcases f with ⟨cats, minP, maxP, uid⟩
  rcases cats with _ | cs <;> rcases minP with _ | m <;> rcases maxP with _ | M <;>
    simp only [] <;>
    (try by_cases h1 : 0 < cs.length) <;>
    (try by_cases h2 : cs.contains p.category = true) <;>
    (try by_cases h3 : p.price < m) <;>
    (try by_cases h4 : M < p.price) <;>
    simp_all [not_lt, le_of_lt, Bool.not_eq_true]

/-- Witness for C10: a publish of a concrete product, inspected under the
topic key, a different key, and both subscription filter functions with a
category-and-price filter. -/
theorem c10_publish_nests_payload_under_topic_witness :
    pubsubPublish "productCreated"
        { id := 1, name := "Gear", description := none, price := 2,
          category := "books", createdAt := 0, updatedAt := 0 : ProductRec }
        "productCreated" =
      some { id := 1, name := "Gear", description := none, price := 2,
             category := "books", createdAt := 0, updatedAt := 0 } ∧
    pubsubPublish "productCreated"
        { id := 1, name := "Gear", description := none, price := 2,
          category := "books", createdAt := 0, updatedAt := 0 : ProductRec }
        "productUpdated" = none ∧
    productCreatedFilterFn
        (pubsubPublish "productCreated"
          { id := 1, name := "Gear", description := none, price := 2,
            category := "books", createdAt := 0, updatedAt := 0 })
        (some { categories := some ["books"], minPrice := some 1,
                maxPrice := some 10 })
      = some (subscriptionFilterPasses
          (some { categories := some ["books"], minPrice := some 1,
                  maxPrice := some 10 })
          { id := 1, name := "Gear", description := none, price := 2,
            category := "books", createdAt := 0, updatedAt := 0 }) ∧
    productCreatedFilterFn
        (pubsubPublish "productUpdated"
          { id := 2, name := "Lamp", description := none, price := 7,
            category := "home", createdAt := 0, updatedAt := 0 })
        (some { categories := some ["books"], minPrice := some 1,
                maxPrice := some 10 }) = none ∧
    productUpdatedFilterFn
        (pubsubPublish "productUpdated"
          { id := 2, name := "Lamp", description := none, price := 7,
            category := "home", createdAt := 0, updatedAt := 0 })
        (some { categories := some ["books"], minPrice := some 1,
                maxPrice := some 10 })
      = some (subscriptionFilterPasses
          (some { categories := some ["books"], minPrice := some 1,
                  maxPrice := some 10 })
          { id := 2, name := "Lamp", description := none, price := 7,
            category := "home", createdAt := 0, updatedAt := 0 }) ∧
    subscriptionFilterPasses
        (some { categories := some ["books"], minPrice := some 1,
                maxPrice := some 10 })
        { id := 1, name := "Gear", description := none, price := 2,
          category := "books", createdAt := 0, updatedAt := 0 }
      = specCategoryPriceFilter
          { categories := some ["books"], minPrice := some 1,
            maxPrice := some 10 }
          { id := 1, name := "Gear", description := none, price := 2,
            category := "books", createdAt := 0, updatedAt := 0 } ∧
    subscriptionFilterPasses none
        { id := 1, name := "Gear", description := none, price := 2,
          category := "books", createdAt := 0, updatedAt := 0 } = true :=
  c10_publish_nests_payload_under_topic "productUpdated" _ _ _ (by decide)

/-! ## Name-uniqueness invariant (C6) -/

/-- Membership in the candidate set of the uniqueness pre-check
(`search(name, ['name'])`). -/
theorem mem_name_search_candidates (db : List ProductRec) (n : String)
    (q : ProductRec) :
    q ∈ (productRepositorySearch db n ["name"]).2 ↔
      q ∈ db ∧ containsCI q.name n = true := by
  have hfields : ["name"].filter productSearchFieldAllowed = ["name"] := by decide
  unfold productRepositorySearch
  rw [hfields]
  simp [mem_sortListBy, List.mem_filter, productFieldCondition]

/-- If the case-insensitive exact-match lookup over the search candidates
comes back empty, no stored product's lower-cased name equals the queried
one. -/
theorem no_ci_conflict_of_find_none {db : List ProductRec} {n : String}
    (hfind : List.find? (nameMatchesCI n)
      (productRepositorySearch db n ["name"]).2 = none) :
    ∀ q ∈ db, ¬ lowerStr q.name = lowerStr n := by
  intro q hq heq
  have hmem : q ∈ (productRepositorySearch db n ["name"]).2 :=
    (mem_name_search_candidates db n q).mpr
      ⟨hq, containsCI_of_lowerStr_eq heq⟩
  have := List.find?_eq_none.mp hfind q hmem
  simp [nameMatchesCI, heq] at this

/-- Invariant: stored product names are pairwise distinct case-insensitively. -/
def namesUniqueCI (db : Db) : Prop :=
  (db.products.map (fun p => lowerStr p.name)).Nodup

/-- Invariant: stored product ids are pairwise distinct (primary key). -/
def idsUnique (db : Db) : Prop :=
  (db.products.map (fun p => p.id)).Nodup

/-- Invariant: stored product names carry no leading/trailing whitespace
(established by the DTO layer's `@Transform(trim)` on every write path). -/
def namesTrimmed (db : Db) : Prop :=
  ∀ p ∈ db.products, strTrim p.name = p.name

/-- Names equal up to case and (leading/trailing) whitespace. -/
def eqUpToCaseWs (a b : String) : Prop :=
  lowerStr (strTrim a) = lowerStr (strTrim b)

/-- `create` preserves case-insensitive uniqueness of names. -/
theorem create_preserves_namesUniqueCI (db : Db)
    (dto : CreateProductServiceDto) (fault : Option String)
    (h : namesUniqueCI db) :
    namesUniqueCI (productServiceCreate db dto fault).db := by
  unfold productServiceCreate
  rcases hval : validateCreateProductDto dto with _ | ⟨e, es⟩ <;>
    simp only [hval]
  · rcases hfind : List.find? (nameMatchesCI dto.name)
        (productRepositorySearch db.products dto.name ["name"]).2 with _ | p <;>
      simp only [hfind]
    · rcases fault with _ | s <;> simp only
      · have hno := no_ci_conflict_of_find_none hfind
        unfold namesUniqueCI at h ⊢
        simp only [repoCreateProduct, List.map_append, List.map_cons,
          List.map_nil, List.nodup_append]
        refine ⟨h, List.nodup_singleton _, ?_⟩
        intro a ha hmem
        simp only [List.mem_map] at ha
        obtain ⟨q, hq, rfl⟩ := ha
        simp only [List.mem_singleton] at hmem
        exact hno q hq hmem
      · exact h
    · exact h
  · exact h

/-- Renaming the (unique) product with a given id to a name that no other
product matches case-insensitively keeps the lower-cased names pairwise
distinct. -/
theorem nodup_map_rename (l : List ProductRec) (id : Nat) (n : String)
    (hIds : (l.map (fun p => p.id)).Nodup)
    (hU : (l.map (fun p => lowerStr p.name)).Nodup)
    (hno : ∀ q ∈ l, lowerStr q.name = lowerStr n → q.id = id) :
    (l.map (fun q => lowerStr (if q.id = id then n else q.name))).Nodup := by
  induction l with
  | nil => simp
  | cons a t ih =>
    simp only [List.map_cons, List.nodup_cons] at hIds hU ⊢
    obtain ⟨haid, hIds'⟩ := hIds
    obtain ⟨haname, hU'⟩ := hU
    refine ⟨?_, ih hIds' hU' (fun q hq => hno q (List.mem_cons_of_mem _ hq))⟩
    intro hmem
    simp only [List.mem_map] at hmem
    obtain ⟨q, hq, heq⟩ := hmem
    by_cases haeq : a.id = id
    · have hqid : ¬ q.id = id := fun hqid =>
        haid (List.mem_map.mpr ⟨q, hq, by rw [hqid, haeq]⟩)
      rw [if_neg hqid, if_pos haeq] at heq
      exact hqid (hno q (List.mem_cons_of_mem _ hq) heq)
    · rw [if_neg haeq] at heq
      by_cases hqid : q.id = id
      · rw [if_pos hqid] at heq
        exact haeq (hno a (List.mem_cons_self a t) heq.symm)
      · rw [if_neg hqid] at heq
        exact haname (List.mem_map.mpr ⟨q, hq, heq⟩)

/-- If the update-path uniqueness lookup (which excludes the updated id)
comes back empty, every stored product matching the new name
case-insensitively is the updated row itself. -/
theorem no_other_ci_conflict_of_find_none {db : List ProductRec} {n : String}
    {id : Nat}
    (hfind : List.find? (fun p => nameMatchesCI n p && p.id ≠ id)
      (productRepositorySearch db n ["name"]).2 = none) :
    ∀ q ∈ db, lowerStr q.name = lowerStr n → q.id = id := by
  intro q hq heq
  have hmem : q ∈ (productRepositorySearch db n ["name"]).2 :=
    (mem_name_search_candidates db n q).mpr
      ⟨hq, containsCI_of_lowerStr_eq heq⟩
  have := List.find?_eq_none.mp hfind q hmem
  simp [nameMatchesCI, heq] at this
  exact this

/-- A validated update DTO cannot carry an explicitly empty name. -/
theorem validate_update_name_ne_empty {dto : UpdateProductServiceDto}
    {n : String} (hval : validateUpdateProductDto dto = [])
    (hname : dto.name = some n) : ¬ n = "" := by
  intro hn
  unfold validateUpdateProductDto at hval
  rw [hname, hn] at hval
  simp [List.append_eq_nil] at hval

/-- The name written by a successful update matches the DTO (or is kept). -/
theorem applyUpdateData_name (dto : UpdateProductServiceDto) (clock : Nat)
    (p : ProductRec) :
    (applyUpdateData dto clock p).name =
      match dto.name with
      | some n => n
      | none => p.name := rfl

/-- A successful `prisma.product.update` maps the stored rows, rewriting the
row with the matching id. -/
theorem repoUpdateProduct_eq_some {db : Db} {id : Nat}
    {dto : UpdateProductServiceDto} {res : ProductRec × Db}
    (h : repoUpdateProduct db id dto = some res) :
    res.2.products = db.products.map
      (fun q => if q.id = id then applyUpdateData dto db.clock q else q) := by
  unfold repoUpdateProduct at h
  rcases hfp : db.products.find? (fun p => p.id = id) with _ | p <;>
    rw [hfp] at h
  · exact absurd h (by simp)
  · have hres := Option.some.inj h
    rw [← hres]

/-- `update` preserves case-insensitive uniqueness of names (given unique
primary keys). -/
theorem update_preserves_namesUniqueCI (db : Db) (id : Nat)
    (dto : UpdateProductServiceDto) (hIds : idsUnique db)
    (hU : namesUniqueCI db) :
    namesUniqueCI (productServiceUpdate db id dto).db := by
  unfold productServiceUpdate
  by_cases hid : id = 0
  · simp only [if_pos hid]
    exact hU
  · simp only [if_neg hid]
    rcases hval : validateUpdateProductDto dto with _ | ⟨e, es⟩
    · rcases hfid : repoFindById db id with _ | existing
      · exact hU
      · have hexmem : existing ∈ db.products := List.mem_of_find?_eq_some hfid
        have hexid : existing.id = id := by
          have := List.find?_some hfid
          simpa using this
        rcases hneed : updateNameCheckNeeded dto existing <;>
          simp only [hneed]
        · -- no uniqueness lookup: either no new name, or it equals the old one
          rcases hupd : repoUpdateProduct db id dto with _ | res
          · exact hU
          · show ((res.2.products.map (fun p => lowerStr p.name))).Nodup
            rw [repoUpdateProduct_eq_some hupd, List.map_map]
            rcases hn : dto.name with _ | n
            · have hform : ∀ q ∈ db.products,
                  ((fun p => lowerStr p.name) ∘ fun q =>
                    if q.id = id then applyUpdateData dto db.clock q else q) q
                    = lowerStr q.name := by
                intro q hq
                by_cases hqid : q.id = id <;>
                  simp [hqid, applyUpdateData_name, hn]
              rw [List.map_congr_left hform]
              exact hU
            · have hnne : ¬ n = "" := validate_update_name_ne_empty hval hn
              have hsame : n = existing.name := by
                unfold updateNameCheckNeeded at hneed
                rw [hn] at hneed
                simp [hnne] at hneed
                exact hneed
              have hno : ∀ q ∈ db.products,
                  lowerStr q.name = lowerStr n → q.id = id := by
                intro q hq heq
                have hq' : q = existing := by
                  apply List.inj_on_of_nodup_map hU hq hexmem
                  rw [heq, hsame]
                rw [hq']
                exact hexid
              have hform : ∀ q ∈ db.products,
                  ((fun p => lowerStr p.name) ∘ fun q =>
                    if q.id = id then applyUpdateData dto db.clock q else q) q
                    = lowerStr (if q.id = id then n else q.name) := by
                intro q hq
                by_cases hqid : q.id = id <;>
                  simp [hqid, applyUpdateData_name, hn]
              rw [List.map_congr_left hform]
              exact nodup_map_rename db.products id n hIds hU hno
        · -- uniqueness lookup ran and found no other id with the new name
          rcases hfind2 : List.find?
              (fun p => nameMatchesCI (dto.name.getD "") p && p.id ≠ id)
              (productRepositorySearch db.products (dto.name.getD "") ["name"]).2
              with _ | w
          · rcases hupd : repoUpdateProduct db id dto with _ | res
            · exact hU
            · show ((res.2.products.map (fun p => lowerStr p.name))).Nodup
              rw [repoUpdateProduct_eq_some hupd, List.map_map]
              rcases hn : dto.name with _ | n
              · simp [updateNameCheckNeeded, hn] at hneed
              · have hno := no_other_ci_conflict_of_find_none hfind2
                rw [hn] at hno
                simp only [Option.getD_some] at hno
                have hform : ∀ q ∈ db.products,
                    ((fun p => lowerStr p.name) ∘ fun q =>
                      if q.id = id then applyUpdateData dto db.clock q else q) q
                      = lowerStr (if q.id = id then n else q.name) := by
                  intro q hq
                  by_cases hqid : q.id = id <;>
                    simp [hqid, applyUpdateData_name, hn]
                rw [List.map_congr_left hform]
                exact nodup_map_rename db.products id n hIds hU hno
          · exact hU
    · exact hU

/-- `remove` preserves case-insensitive uniqueness of names. -/
theorem remove_preserves_namesUniqueCI (db : Db) (id : Nat)
    (hU : namesUniqueCI db) :
    namesUniqueCI (productServiceRemove db id).db := by
  unfold productServiceRemove
  by_cases hid : id = 0
  · simp only [if_pos hid]
    exact hU
  · simp only [if_neg hid]
    rcases hfid : repoFindById db id with _ | existing <;> simp only
    · exact hU
    · unfold namesUniqueCI repoDeleteProduct
      exact ((List.filter_sublist _).map _).nodup hU

/-- The DTO-layer normalization of `ProductBaseDTO`'s `@Transform` hooks on
the create path: `name` is trimmed; an absent/empty `description` becomes
`null`, otherwise it is trimmed; `category` is lower-cased then trimmed. -/
def dtoTransformCreate (rawName : String) (rawDescription : Option String)
    (price : ℚ) (rawCategory : String) : CreateProductServiceDto :=
  { name := strTrim rawName
    description :=
      match rawDescription with
      | none => none
      | some d => if d = "" then none else some (strTrim d)
    price := price
    category := ⟨trimChars (lowerStr rawCategory)⟩ }

/-- A create request through the DTO pipeline: transform, then
`ProductService.create` (no injected fault). -/
def createProductViaApi (db : Db) (rawName : String)
    (rawDescription : Option String) (price : ℚ) (rawCategory : String) :
    ServiceOutcome ProductRec :=
  productServiceCreate db
    (dtoTransformCreate rawName rawDescription price rawCategory) none

/-- **C6.** Under sequential execution, with stored names trimmed (as the DTO
layer guarantees), unique primary keys and case-insensitively unique names:
a create whose raw name equals an existing product's name up to case and
whitespace is rejected with the uniqueness validation error on field `name`,
leaving the store unchanged with no write and no publish; and every
`ProductService` operation (create, update — including name changes —,
remove) preserves the case-insensitive uniqueness invariant. -/
theorem c6_product_name_uniqueness
    (db : Db) (rawName : String) (rawDesc : Option String) (price : ℚ)
    (rawCat : String) (cdto : CreateProductServiceDto) (cfault : Option String)
    (uid : Nat) (udto : UpdateProductServiceDto) (rid : Nat)
    (hTrim : namesTrimmed db) (hIds : idsUnique db) (hU : namesUniqueCI db)
    (hdup : ∃ q ∈ db.products, eqUpToCaseWs rawName q.name)
    (hval : validateCreateProductDto
      (dtoTransformCreate rawName rawDesc price rawCat) = []) :
    (createProductViaApi db rawName rawDesc price rawCat).result
      = .error (.validation [uniqueNameError (strTrim rawName)]) ∧
    (createProductViaApi db rawName rawDesc price rawCat).db = db ∧
    (createProductViaApi db rawName rawDesc price rawCat).trace.all
      (fun a => !isMutationOrPublish a) = true ∧
    namesUniqueCI (productServiceCreate db cdto cfault).db ∧
    namesUniqueCI (productServiceUpdate db uid udto).db ∧
    namesUniqueCI (productServiceRemove db rid).db := by
  obtain ⟨q, hq, hqe⟩ := hdup
  have hqtrim : strTrim q.name = q.name := hTrim q hq
  have hlow : lowerStr q.name =
      lowerStr (dtoTransformCreate rawName rawDesc price rawCat).name :=
    calc lowerStr q.name
        = lowerStr (strTrim q.name) := (congrArg lowerStr hqtrim).symm
      _ = lowerStr (strTrim rawName) := hqe.symm
  refine ⟨?_, ?_, ?_,
    create_preserves_namesUniqueCI db cdto cfault hU,
    update_preserves_namesUniqueCI db uid udto hIds hU,
    remove_preserves_namesUniqueCI db rid hU⟩ <;>
  · unfold createProductViaApi productServiceCreate
    simp only [hval]
    rcases hfind : List.find?
        (nameMatchesCI (dtoTransformCreate rawName rawDesc price rawCat).name)
        (productRepositorySearch db.products
          (dtoTransformCreate rawName rawDesc price rawCat).name ["name"]).2
        with _ | w
    · exact absurd hlow (no_ci_conflict_of_find_none hfind q hq)
    · rfl

/-- Witness for C6: the store holds `"Widget"`; creating `"  wIDGET "`
(equal up to case and whitespace) is rejected with the uniqueness error and
no write, and concrete create/update/remove calls preserve the invariant. -/
theorem c6_product_name_uniqueness_witness :
    (createProductViaApi
        { products := [{ id := 1, name := "Widget", description := none,
                         price := 3, category := "books", createdAt := 0,
                         updatedAt := 0 }], nextId := 2, clock := 5 }
        "  wIDGET " none 3 "Books").result
      = .error (.validation [uniqueNameError (strTrim "  wIDGET ")]) ∧
    (createProductViaApi
        { products := [{ id := 1, name := "Widget", description := none,
                         price := 3, category := "books", createdAt := 0,
                         updatedAt := 0 }], nextId := 2, clock := 5 }
        "  wIDGET " none 3 "Books").db
      = { products := [{ id := 1, name := "Widget", description := none,
                         price := 3, category := "books", createdAt := 0,
                         updatedAt := 0 }], nextId := 2, clock := 5 } ∧
    (createProductViaApi
        { products := [{ id := 1, name := "Widget", description := none,
                         price := 3, category := "books", createdAt := 0,
                         updatedAt := 0 }], nextId := 2, clock := 5 }
        "  wIDGET " none 3 "Books").trace.all
      (fun a => !isMutationOrPublish a) = true ∧
    namesUniqueCI (productServiceCreate
        { products := [{ id := 1, name := "Widget", description := none,
                         price := 3, category := "books", createdAt := 0,
                         updatedAt := 0 }], nextId := 2, clock := 5 }
        { name := "Gear", price := 2, category := "books" } none).db ∧
    namesUniqueCI (productServiceUpdate
        { products := [{ id := 1, name := "Widget", description := none,
                         price := 3, category := "books", createdAt := 0,
                         updatedAt := 0 }], nextId := 2, clock := 5 }
        1 { name := some "Tool" }).db ∧
    namesUniqueCI (productServiceRemove
        { products := [{ id := 1, name := "Widget", description := none,
                         price := 3, category := "books", createdAt := 0,
                         updatedAt := 0 }], nextId := 2, clock := 5 } 1).db :=
  c6_product_name_uniqueness _ "  wIDGET " none 3 "Books" _ none 1 _ 1
    (by unfold namesTrimmed; decide) (by unfold idsUnique; decide)
    (by unfold namesUniqueCI; decide)
    ⟨{ id := 1, name := "Widget", description := none, price := 3,
       category := "books", createdAt := 0, updatedAt := 0 },
      by decide, by unfold eqUpToCaseWs; decide⟩
    (by decide)
